import Mathlib

/-
Shallow embedding of pkg/kubectl/resource_printer.go (yugui/kubernetes).

Modelling conventions:
- Go errors are GoError values; a Go func returning error is modelled as
  returning Option GoError (none = nil).
- An io.Writer is modelled by the list of chunks successfully handed to it
  (threaded explicitly) together with a FailSched, a schedule that says
  whether the n-th Write call on this writer fails.  fmt.Fprintf(w, ...)
  becomes wwrite, which records the formatted chunk and returns the
  scheduled error.  The tabwriter wrapper in PrintObj only re-aligns
  columns on flush; it is modelled as a pass-through of the chunks.
- reflect.Type is the inductive GoType (one constructor per pointer type
  that occurs, plus the io.Writer and error interface types and an escape
  constructor for arbitrary other types).
- reflect.Value holding a candidate print handler is ReflectValue: either
  a function with a reflected signature and a callable implementation, or
  a non-function value of some type.
- External collaborators (api.Scheme.Convert, makeImageList, labels.Set,
  latest.InterfacesFor, the codec, json.Indent, template parsing, file
  reading) are parameters gathered in environment structures; the code
  under src only calls them.
-/

namespace ResourcePrinterModel

/-- Go error value (the result of fmt.Errorf and friends). -/
structure GoError where
  msg : String
deriving DecidableEq, Repr

/-- Reflected runtime type identity (reflect.Type).  Pointer types of the
API objects handled by the printer are distinct constructors; ioWriter and
errorKind stand for the io.Writer and error interface types. -/
inductive GoType where
  | podPtr
  | podListPtr
  | rcPtr
  | rcListPtr
  | servicePtr
  | serviceListPtr
  | minionPtr
  | minionListPtr
  | statusPtr
  | eventPtr
  | eventListPtr
  | ioWriter
  | errorKind
  | other (name : String)
deriving DecidableEq, Repr

/-- Container manifest carried in a pod's desired state (api.ContainerManifest);
only its identity matters to the printer, which hands it to the converter. -/
structure ContainerManifest where
  id : String
deriving DecidableEq, Repr

/-- Pod spec produced by converting the manifest (api.PodSpec); the printer
only hands it to makeImageList, so the container images are all we keep. -/
structure PodSpec where
  containers : List String
deriving DecidableEq, Repr

/-- Zero value of api.PodSpec, as allocated by printPod before conversion. -/
def PodSpec.zeroValue : PodSpec := ⟨[]⟩

/-- Pod state (api.PodState): fields read by printPod. -/
structure PodState where
  manifest : ContainerManifest
  host : String
  hostIP : String
  status : String
deriving DecidableEq, Repr

/-- api.Pod: fields read by printPod. -/
structure ApiPod where
  name : String
  labels : List (String × String)
  desiredState : PodState
  currentState : PodState
deriving DecidableEq, Repr

structure PodTemplateSpec where
  spec : PodSpec
deriving DecidableEq, Repr

structure ReplicationControllerSpec where
  template : PodTemplateSpec
  selector : List (String × String)
  replicas : Int
deriving DecidableEq, Repr

/-- api.ReplicationController: fields read by printReplicationController. -/
structure ApiReplicationController where
  name : String
  spec : ReplicationControllerSpec
deriving DecidableEq, Repr

structure ServiceSpec where
  selector : List (String × String)
  portalIP : String
  port : Int
deriving DecidableEq, Repr

/-- api.Service: fields read by printService. -/
structure ApiService where
  name : String
  labels : List (String × String)
  spec : ServiceSpec
deriving DecidableEq, Repr

/-- api.Minion: fields read by printMinion. -/
structure ApiMinion where
  name : String
deriving DecidableEq, Repr

/-- api.Status: fields read by printStatus. -/
structure ApiStatus where
  status : String
deriving DecidableEq, Repr

structure ObjectReference where
  name : String
  kind : String
deriving DecidableEq, Repr

/-- api.Event: fields read by printEvent. -/
structure ApiEvent where
  involvedObject : ObjectReference
  status : String
  reason : String
  message : String
deriving DecidableEq, Repr

structure ApiPodList where
  items : List ApiPod
deriving DecidableEq, Repr

structure ApiReplicationControllerList where
  items : List ApiReplicationController
deriving DecidableEq, Repr

structure ApiServiceList where
  items : List ApiService
deriving DecidableEq, Repr

structure ApiMinionList where
  items : List ApiMinion
deriving DecidableEq, Repr

structure ApiEventList where
  items : List ApiEvent
deriving DecidableEq, Repr

/-- runtime.Object: the closed universe of objects passed to PrintObj in
this core (each constructor corresponds to one pointer type). -/
inductive Object where
  | pod (p : ApiPod)
  | podList (l : ApiPodList)
  | rc (c : ApiReplicationController)
  | rcList (l : ApiReplicationControllerList)
  | service (s : ApiService)
  | serviceList (l : ApiServiceList)
  | minion (m : ApiMinion)
  | minionList (l : ApiMinionList)
  | status (s : ApiStatus)
  | event (e : ApiEvent)
  | eventList (l : ApiEventList)
deriving DecidableEq, Repr

/-- reflect.TypeOf on a runtime.Object value. -/
def typeOf : Object → GoType
  | .pod _ => .podPtr
  | .podList _ => .podListPtr
  | .rc _ => .rcPtr
  | .rcList _ => .rcListPtr
  | .service _ => .servicePtr
  | .serviceList _ => .serviceListPtr
  | .minion _ => .minionPtr
  | .minionList _ => .minionListPtr
  | .status _ => .statusPtr
  | .event _ => .eventPtr
  | .eventList _ => .eventListPtr

/-- Failure schedule of a writer: whether its n-th Write call fails. -/
def FailSched : Type := Nat → Option GoError

/-- One Write call: the chunk is recorded and the scheduled result of this
call (indexed by how many chunks were written before) is returned. -/
def wwrite (w : FailSched) (st : List String) (s : String) :
    List String × Option GoError :=
  (st ++ [s], w st.length)

/-- External collaborators used by the default tabular print handlers. -/
structure PrintEnv where
  convertManifest : ContainerManifest → Except GoError PodSpec
  makeImageList : PodSpec → String
  labelsSet : List (String × String) → String

/-- podHostString from the source. -/
def podHostString (host ip : String) : String :=
  if host = "" ∧ ip = "" then "<unassigned>" else host ++ "/" ++ ip

/-- The row printPod formats for a pod, given the converted (or zero) spec. -/
def podRow (env : PrintEnv) (spec : PodSpec) (pod : ApiPod) : String :=
  pod.name ++ "\t" ++ env.makeImageList spec ++ "\t" ++
    podHostString pod.currentState.host pod.currentState.hostIP ++ "\t" ++
    env.labelsSet pod.labels ++ "\t" ++ pod.currentState.status ++ "\n"

/-- printPod: converts the desired-state manifest into a freshly allocated
zero spec; a conversion error is only logged, leaving the spec at its zero
value; then one row is written and the Write result returned. -/
def printPod (env : PrintEnv) (w : FailSched) (st : List String) (pod : ApiPod) :
    List String × Option GoError :=
  wwrite w st (podRow env
    (match env.convertManifest pod.desiredState.manifest with
      | .ok spec => spec
      | .error _ => PodSpec.zeroValue) pod)

/-- Loop body of printPodList: print each item, return on first error. -/
def printPodListLoop (env : PrintEnv) (w : FailSched) :
    List String → List ApiPod → List String × Option GoError
  | st, [] => (st, none)
  | st, pod :: rest =>
    match printPod env w st pod with
    | (st1, some e) => (st1, some e)
    | (st1, none) => printPodListLoop env w st1 rest

/-- printPodList from the source. -/
def printPodList (env : PrintEnv) (w : FailSched) (st : List String)
    (l : ApiPodList) : List String × Option GoError :=
  printPodListLoop env w st l.items

/-- The row printReplicationController formats. -/
def rcRow (env : PrintEnv) (c : ApiReplicationController) : String :=
  c.name ++ "\t" ++ env.makeImageList c.spec.template.spec ++ "\t" ++
    env.labelsSet c.spec.selector ++ "\t" ++ toString c.spec.replicas ++ "\n"

/-- printReplicationController from the source. -/
def printReplicationController (env : PrintEnv) (w : FailSched) (st : List String)
    (c : ApiReplicationController) : List String × Option GoError :=
  wwrite w st (rcRow env c)

/-- Loop body of printReplicationControllerList. -/
def printRcListLoop (env : PrintEnv) (w : FailSched) :
    List String → List ApiReplicationController → List String × Option GoError
  | st, [] => (st, none)
  | st, c :: rest =>
    match printReplicationController env w st c with
    | (st1, some e) => (st1, some e)
    | (st1, none) => printRcListLoop env w st1 rest

/-- printReplicationControllerList from the source. -/
def printReplicationControllerList (env : PrintEnv) (w : FailSched)
    (st : List String) (l : ApiReplicationControllerList) :
    List String × Option GoError :=
  printRcListLoop env w st l.items

/-- The row printService formats. -/
def svcRow (env : PrintEnv) (svc : ApiService) : String :=
  svc.name ++ "\t" ++ env.labelsSet svc.labels ++ "\t" ++
    env.labelsSet svc.spec.selector ++ "\t" ++ svc.spec.portalIP ++ "\t" ++
    toString svc.spec.port ++ "\n"

/-- printService from the source. -/
def printService (env : PrintEnv) (w : FailSched) (st : List String)
    (svc : ApiService) : List String × Option GoError :=
  wwrite w st (svcRow env svc)

/-- Loop body of printServiceList. -/
def printServiceListLoop (env : PrintEnv) (w : FailSched) :
    List String → List ApiService → List String × Option GoError
  | st, [] => (st, none)
  | st, svc :: rest =>
    match printService env w st svc with
    | (st1, some e) => (st1, some e)
    | (st1, none) => printServiceListLoop env w st1 rest

/-- printServiceList from the source. -/
def printServiceList (env : PrintEnv) (w : FailSched) (st : List String)
    (l : ApiServiceList) : List String × Option GoError :=
  printServiceListLoop env w st l.items

/-- printMinion from the source. -/
def printMinion (_env : PrintEnv) (w : FailSched) (st : List String)
    (m : ApiMinion) : List String × Option GoError :=
  wwrite w st (m.name ++ "\n")

/-- Loop body of printMinionList. -/
def printMinionListLoop (env : PrintEnv) (w : FailSched) :
    List String → List ApiMinion → List String × Option GoError
  | st, [] => (st, none)
  | st, m :: rest =>
    match printMinion env w st m with
    | (st1, some e) => (st1, some e)
    | (st1, none) => printMinionListLoop env w st1 rest

/-- printMinionList from the source. -/
def printMinionList (env : PrintEnv) (w : FailSched) (st : List String)
    (l : ApiMinionList) : List String × Option GoError :=
  printMinionListLoop env w st l.items

/-- printStatus from the source. -/
def printStatus (_env : PrintEnv) (w : FailSched) (st : List String)
    (s : ApiStatus) : List String × Option GoError :=
  wwrite w st (s.status ++ "\n")

/-- The row printEvent formats. -/
def eventRow (e : ApiEvent) : String :=
  e.involvedObject.name ++ "\t" ++ e.involvedObject.kind ++ "\t" ++
    e.status ++ "\t" ++ e.reason ++ "\t" ++ e.message ++ "\n"

/-- printEvent from the source. -/
def printEvent (_env : PrintEnv) (w : FailSched) (st : List String)
    (e : ApiEvent) : List String × Option GoError :=
  wwrite w st (eventRow e)

/-- Loop body of printEventList. -/
def printEventListLoop (env : PrintEnv) (w : FailSched) :
    List String → List ApiEvent → List String × Option GoError
  | st, [] => (st, none)
  | st, e :: rest =>
    match printEvent env w st e with
    | (st1, some err) => (st1, some err)
    | (st1, none) => printEventListLoop env w st1 rest

/-- printEventList from the source. -/
def printEventList (env : PrintEnv) (w : FailSched) (st : List String)
    (l : ApiEventList) : List String × Option GoError :=
  printEventListLoop env w st l.items

/-- Callable content of a registered print function, as invoked through
reflect.Value.Call inside PrintObj: it receives the dynamic object and the
(buffered) writer and yields the writer result and the returned error. -/
def PrintImpl : Type :=
  Object → FailSched → List String → List String × Option GoError

/-- Reflected function signature (reflect.Type of kind Func). -/
structure GoFuncType where
  inTypes : List GoType
  outTypes : List GoType
deriving DecidableEq, Repr

/-- reflect.Value of a candidate print handler: a function with its
reflected signature and callable implementation, or a non-function value. -/
inductive ReflectValue where
  | func (t : GoFuncType) (impl : PrintImpl)
  | nonFunc (t : GoType)

/-- printFuncValue.Type().In(0): the declared type of parameter 1 (only
read after validation has established that there are two parameters). -/
def valIn0 : ReflectValue → GoType
  | .func t _ => t.inTypes.getD 0 (.other "none")
  | .nonFunc t => t

/-- Invoke a stored reflect.Value on (obj, w), as handler.printFunc.Call
does; calling a non-function would panic in Go and never happens after
validation. -/
def callValue : ReflectValue → Object → FailSched → List String →
    List String × Option GoError
  | .func _ impl, obj, w, st => impl obj w st
  | .nonFunc _, _, _, st => (st, some ⟨"reflect: call of non-function"⟩)

/-- Handler registry entry (struct handlerEntry). -/
structure handlerEntry where
  columns : List String
  printFunc : ReflectValue

/-- The handler registry handlerMap, as an association list keyed by type
identity with at most one entry per key. -/
def HandlerMap : Type := List (GoType × handlerEntry)

/-- Map lookup h.handlerMap[t]. -/
def lookupHandler : HandlerMap → GoType → Option handlerEntry
  | [], _ => none
  | (t1, e) :: rest, t => if t1 = t then some e else lookupHandler rest t

/-- Map store h.handlerMap[t] = e (overwrites any prior entry for t). -/
def setHandler : HandlerMap → GoType → handlerEntry → HandlerMap
  | [], t, e => [(t, e)]
  | (t1, e1) :: rest, t, e =>
    if t1 = t then (t, e) :: rest else (t1, e1) :: setHandler rest t e

/-- HumanReadablePrinter: registry, noHeaders flag and last printed type
(lastType is none before the first successful dispatch). -/
structure HumanReadablePrinter where
  handlerMap : HandlerMap
  noHeaders : Bool
  lastType : Option GoType

/-- validatePrintHandlerFunc from the source: the value must be a function
taking exactly 2 parameters and returning exactly 1 result, with parameter
1 (zero-based) exactly io.Writer and result 0 exactly error. -/
def validatePrintHandlerFunc (printFunc : ReflectValue) : Option GoError :=
  match printFunc with
  | .nonFunc _ => some ⟨"invalid print handler. value is not a function."⟩
  | .func t _ =>
    if t.inTypes.length ≠ 2 ∨ t.outTypes.length ≠ 1 then
      some ⟨"invalid print handler.Must accept 2 parameters and return 1 value."⟩
    else if t.inTypes.getD 1 (.other "none") ≠ .ioWriter ∨
        t.outTypes.getD 0 (.other "none") ≠ .errorKind then
      some ⟨"invalid print handler. The expected signature is: func handler(obj, w io.Writer) error"⟩
    else
      none

/-- Handler from the source: validate, and on success store the entry
under the type identity of parameter 0; on failure only log and return. -/
def HumanReadablePrinter.Handler (h : HumanReadablePrinter)
    (columns : List String) (printFunc : ReflectValue) :
    HumanReadablePrinter × Option GoError :=
  match validatePrintHandlerFunc printFunc with
  | some e => (h, some e)
  | none =>
    (HumanReadablePrinter.mk
      (setHandler h.handlerMap (valIn0 printFunc) ⟨columns, printFunc⟩)
      h.noHeaders h.lastType,
      none)

def podColumns : List String := ["NAME", "IMAGE(S)", "HOST", "LABELS", "STATUS"]
def replicationControllerColumns : List String :=
  ["NAME", "IMAGE(S)", "SELECTOR", "REPLICAS"]
def serviceColumns : List String := ["NAME", "LABELS", "SELECTOR", "IP", "PORT"]
def minionColumns : List String := ["NAME"]
def statusColumns : List String := ["STATUS"]
def eventColumns : List String := ["NAME", "KIND", "STATUS", "REASON", "MESSAGE"]

/-- Implementation called through the reflect.Value registered for printPod. -/
def printPodImpl (env : PrintEnv) : PrintImpl
  | .pod p, w, st => printPod env w st p
  | _, _, st => (st, some ⟨"reflect: Call using wrong argument type"⟩)

def printPodValue (env : PrintEnv) : ReflectValue :=
  .func ⟨[.podPtr, .ioWriter], [.errorKind]⟩ (printPodImpl env)

def printPodListImpl (env : PrintEnv) : PrintImpl
  | .podList l, w, st => printPodList env w st l
  | _, _, st => (st, some ⟨"reflect: Call using wrong argument type"⟩)

def printPodListValue (env : PrintEnv) : ReflectValue :=
  .func ⟨[.podListPtr, .ioWriter], [.errorKind]⟩ (printPodListImpl env)

def printRcImpl (env : PrintEnv) : PrintImpl
  | .rc c, w, st => printReplicationController env w st c
  | _, _, st => (st, some ⟨"reflect: Call using wrong argument type"⟩)

def printRcValue (env : PrintEnv) : ReflectValue :=
  .func ⟨[.rcPtr, .ioWriter], [.errorKind]⟩ (printRcImpl env)

def printRcListImpl (env : PrintEnv) : PrintImpl
  | .rcList l, w, st => printReplicationControllerList env w st l
  | _, _, st => (st, some ⟨"reflect: Call using wrong argument type"⟩)

def printRcListValue (env : PrintEnv) : ReflectValue :=
  .func ⟨[.rcListPtr, .ioWriter], [.errorKind]⟩ (printRcListImpl env)

def printServiceImpl (env : PrintEnv) : PrintImpl
  | .service s, w, st => printService env w st s
  | _, _, st => (st, some ⟨"reflect: Call using wrong argument type"⟩)

def printServiceValue (env : PrintEnv) : ReflectValue :=
  .func ⟨[.servicePtr, .ioWriter], [.errorKind]⟩ (printServiceImpl env)

def printServiceListImpl (env : PrintEnv) : PrintImpl
  | .serviceList l, w, st => printServiceList env w st l
  | _, _, st => (st, some ⟨"reflect: Call using wrong argument type"⟩)

def printServiceListValue (env : PrintEnv) : ReflectValue :=
  .func ⟨[.serviceListPtr, .ioWriter], [.errorKind]⟩ (printServiceListImpl env)

def printMinionImpl (env : PrintEnv) : PrintImpl
  | .minion m, w, st => printMinion env w st m
  | _, _, st => (st, some ⟨"reflect: Call using wrong argument type"⟩)

def printMinionValue (env : PrintEnv) : ReflectValue :=
  .func ⟨[.minionPtr, .ioWriter], [.errorKind]⟩ (printMinionImpl env)

def printMinionListImpl (env : PrintEnv) : PrintImpl
  | .minionList l, w, st => printMinionList env w st l
  | _, _, st => (st, some ⟨"reflect: Call using wrong argument type"⟩)

def printMinionListValue (env : PrintEnv) : ReflectValue :=
  .func ⟨[.minionListPtr, .ioWriter], [.errorKind]⟩ (printMinionListImpl env)

def printStatusImpl (env : PrintEnv) : PrintImpl
  | .status s, w, st => printStatus env w st s
  | _, _, st => (st, some ⟨"reflect: Call using wrong argument type"⟩)

def printStatusValue (env : PrintEnv) : ReflectValue :=
  .func ⟨[.statusPtr, .ioWriter], [.errorKind]⟩ (printStatusImpl env)

def printEventImpl (env : PrintEnv) : PrintImpl
  | .event e, w, st => printEvent env w st e
  | _, _, st => (st, some ⟨"reflect: Call using wrong argument type"⟩)

def printEventValue (env : PrintEnv) : ReflectValue :=
  .func ⟨[.eventPtr, .ioWriter], [.errorKind]⟩ (printEventImpl env)

def printEventListImpl (env : PrintEnv) : PrintImpl
  | .eventList l, w, st => printEventList env w st l
  | _, _, st => (st, some ⟨"reflect: Call using wrong argument type"⟩)

def printEventListValue (env : PrintEnv) : ReflectValue :=
  .func ⟨[.eventListPtr, .ioWriter], [.errorKind]⟩ (printEventListImpl env)

/-- addDefaultHandlers from the source (it discards the error returned by
Handler on each registration). -/
def addDefaultHandlers (env : PrintEnv) (h : HumanReadablePrinter) :
    HumanReadablePrinter :=
  let h1 := (h.Handler podColumns (printPodValue env)).1
  let h2 := (h1.Handler podColumns (printPodListValue env)).1
  let h3 := (h2.Handler replicationControllerColumns (printRcValue env)).1
  let h4 := (h3.Handler replicationControllerColumns (printRcListValue env)).1
  let h5 := (h4.Handler serviceColumns (printServiceValue env)).1
  let h6 := (h5.Handler serviceColumns (printServiceListValue env)).1
  let h7 := (h6.Handler minionColumns (printMinionValue env)).1
  let h8 := (h7.Handler minionColumns (printMinionListValue env)).1
  let h9 := (h8.Handler statusColumns (printStatusValue env)).1
  let h10 := (h9.Handler eventColumns (printEventValue env)).1
  (h10.Handler eventColumns (printEventListValue env)).1

/-- NewHumanReadablePrinter from the source. -/
def NewHumanReadablePrinter (env : PrintEnv) (noHeaders : Bool) :
    HumanReadablePrinter :=
  addDefaultHandlers env (HumanReadablePrinter.mk [] noHeaders none)

/-- The header row: column names tab-joined, newline-terminated. -/
def headerRow (columnNames : List String) : String :=
  String.intercalate "\t" columnNames ++ "\n"

/-- printHeader from the source. -/
def printHeader (columnNames : List String) (w : FailSched) (st : List String) :
    List String × Option GoError :=
  wwrite w st (headerRow columnNames)

/-- PrintObj from the source.  The tabwriter wrapper is a pass-through in
this model; the printHeader error is discarded exactly as in the source
(its return value is not inspected), and lastType is assigned inside the
same conditional that writes the header, before the handler is invoked. -/
def HumanReadablePrinter.PrintObj (h : HumanReadablePrinter) (obj : Object)
    (w : FailSched) (st : List String) :
    HumanReadablePrinter × List String × Option GoError :=
  match lookupHandler h.handlerMap (typeOf obj) with
  | some entry =>
    if h.noHeaders = false ∧ h.lastType ≠ some (typeOf obj) then
      ⟨HumanReadablePrinter.mk h.handlerMap h.noHeaders (some (typeOf obj)),
        callValue entry.printFunc obj w (printHeader entry.columns w st).1⟩
    else
      ⟨h, callValue entry.printFunc obj w st⟩
  | none => (h, st, some ⟨"error: unknown type " ++ reprStr obj⟩)

/-- Versioned interfaces returned by latest.InterfacesFor: only the codec
Encode operation is consumed here. -/
structure VersionInterfaces where
  encode : Object → Except GoError String

/-- External collaborators of the JSON printer: the version-interface
lookup and json.Indent.  jsonIndent takes the source bytes, the per-line
leading text and the indent unit, and yields the bytes it deposited in the
destination buffer together with an optional error (on error the buffer
holds whatever partial output Indent produced). -/
structure JSONEnv where
  interfacesFor : String → Except GoError VersionInterfaces
  jsonIndent : String → String → String → String × Option GoError

/-- JSONPrinter from the source. -/
structure JSONPrinter where
  version : String
deriving DecidableEq, Repr

/-- JSONPrinter.PrintObj from the source: look up the version interfaces,
encode, indent into a buffer (the indent error is assigned to err but
overwritten by the Write result before being inspected), append a newline,
and write the buffer contents; the Write result is returned. -/
def JSONPrinter.PrintObj (env : JSONEnv) (j : JSONPrinter) (obj : Object)
    (w : FailSched) (st : List String) : List String × Option GoError :=
  match env.interfacesFor j.version with
  | .error e => (st, some e)
  | .ok vi =>
    match vi.encode obj with
    | .error e => (st, some e)
    | .ok data =>
      wwrite w st ((env.jsonIndent data "" "    ").1 ++ "\n")

/-- Parsed text/template value (only its identity matters here). -/
structure GoTemplate where
  text : String
deriving DecidableEq, Repr

/-- External collaborators of the printer factory: template parsing
(text/template Parse inside NewTemplatePrinter) and ioutil.ReadFile. -/
structure FactoryEnv where
  parseTemplate : String → Except GoError GoTemplate
  readFile : String → Except GoError String

/-- ResourcePrinter values the factory can return. -/
inductive ResourcePrinter where
  | json (version : String)
  | yaml (version : String)
  | template (version : String) (tmpl : GoTemplate)
  | humanReadable (p : HumanReadablePrinter)

/-- NewTemplatePrinter from the source. -/
def NewTemplatePrinter (env : FactoryEnv) (version tmpl : String) :
    Except GoError ResourcePrinter :=
  match env.parseTemplate tmpl with
  | .error e => .error e
  | .ok t => .ok (.template version t)

/-- GetPrinter from the source (the Go switch on the format string is an
equality chain; %q on a plain format string renders as double quotes). -/
def GetPrinter (env : FactoryEnv) (version format templateFile : String)
    (defaultPrinter : ResourcePrinter) : Except GoError ResourcePrinter :=
  if format = "json" then .ok (.json version)
  else if format = "yaml" then .ok (.yaml version)
  else if format = "template" then
    if templateFile.length = 0 then
      .error ⟨"template format specified but no template given"⟩
    else
      match NewTemplatePrinter env version templateFile with
      | .error e =>
        .error ⟨"error parsing template " ++ templateFile ++ ", " ++ e.msg ++ "\n"⟩
      | .ok p => .ok p
  else if format = "templatefile" then
    if templateFile.length = 0 then
      .error ⟨"templatefile format specified but no template file given"⟩
    else
      match env.readFile templateFile with
      | .error e =>
        .error ⟨"error reading template " ++ templateFile ++ ", " ++ e.msg ++ "\n"⟩
      | .ok data =>
        match NewTemplatePrinter env version data with
        | .error e =>
          .error ⟨"error parsing template " ++ data ++ ", " ++ e.msg ++ "\n"⟩
        | .ok p => .ok p
  else if format = "" then .ok defaultPrinter
  else .error ⟨"output format \"" ++ format ++ "\" not recognized"⟩

/-- Whether an Except value is an error. -/
def exErr {α : Type} : Except GoError α → Bool
  | .error _ => true
  | .ok _ => false

/-- Handler-shape requirement in the words of the spec: the value is a
function that takes exactly 2 parameters and returns exactly 1 result,
with parameter 2 exactly the writer capability and the result exactly the
error capability.  Stated independently of validatePrintHandlerFunc to be
compared with it. -/
def validShape : ReflectValue → Bool
  | .func t _ =>
    t.inTypes.length = 2 && t.outTypes.length = 1 &&
      t.inTypes.getD 1 (.other "none") = GoType.ioWriter &&
      t.outTypes.getD 0 (.other "none") = GoType.errorKind
  | .nonFunc _ => false

/-- Generic per-item run: invoke f once per item in order, return the
first non-nil error without touching the remaining items, return nil when
every item succeeds.  The list-form default render functions are proved
equal to this combinator applied to their singular counterpart. -/
def firstErrorRun {α : Type} (f : List String → α → List String × Option GoError) :
    List String → List α → List String × Option GoError
  | st, [] => (st, none)
  | st, x :: xs =>
    match f st x with
    | (st1, some e) => (st1, some e)
    | (st1, none) => firstErrorRun f st1 xs

/-- Writer whose Write calls all succeed. -/
def okSched : FailSched := fun _ => none

/-- Writer whose Write calls all fail. -/
def failSched : FailSched := fun _ => some ⟨"write failed"⟩

/-- Concrete collaborator environment for witnesses and counterexamples. -/
def envC : PrintEnv :=
  ⟨fun _ => .ok PodSpec.zeroValue,
    fun spec => String.intercalate "," spec.containers,
    fun pairs => String.intercalate "," (pairs.map (fun kv => kv.1 ++ "=" ++ kv.2))⟩

/-- Collaborator environment whose manifest conversion always fails. -/
def envBadConvert : PrintEnv :=
  ⟨fun _ => .error ⟨"conversion failed"⟩,
    fun spec => String.intercalate "," spec.containers,
    fun pairs => String.intercalate "," (pairs.map (fun kv => kv.1 ++ "=" ++ kv.2))⟩

def svc1 : ApiService := ⟨"svc1", [("app", "a")], ⟨[("app", "a")], "10.0.0.1", 80⟩⟩
def svc2 : ApiService := ⟨"svc2", [], ⟨[], "10.0.0.2", 81⟩⟩
def svc3 : ApiService := ⟨"svc3", [], ⟨[], "10.0.0.3", 82⟩⟩

def pod1 : ApiPod :=
  ⟨"pod1", [("run", "p")], ⟨⟨"m1"⟩, "", "", ""⟩, ⟨⟨"m1"⟩, "h1", "1.2.3.4", "Running"⟩⟩
def pod2 : ApiPod :=
  ⟨"pod2", [], ⟨⟨"m2"⟩, "", "", ""⟩, ⟨⟨"m2"⟩, "h2", "1.2.3.5", "Pending"⟩⟩

/-- Tabular printer state after printing svc-list objects in the C5
scenario: same registry, lastType set to the list identity. -/
def hrAfterList : HumanReadablePrinter :=
  HumanReadablePrinter.mk (NewHumanReadablePrinter envC false).handlerMap false
    (some GoType.serviceListPtr)

/-- Tabular printer state after the subsequent singular service print. -/
def hrAfterSvc : HumanReadablePrinter :=
  HumanReadablePrinter.mk (NewHumanReadablePrinter envC false).handlerMap false
    (some GoType.servicePtr)

/-- Tiny printer with one registered handler, used by witnesses. -/
def hrpW : HumanReadablePrinter :=
  ((HumanReadablePrinter.mk [] false none).Handler statusColumns
    (printStatusValue envC)).1

def objW : Object := .status ⟨"ok"⟩

def entryW : handlerEntry := ⟨statusColumns, printStatusValue envC⟩

/-- A callable body for malformed-signature witnesses. -/
def idImpl : PrintImpl := fun _ _ st => (st, none)

/-- A reflect.Value whose function takes 3 parameters. -/
def vBad3 : ReflectValue :=
  .func ⟨[.podPtr, .ioWriter, .ioWriter], [.errorKind]⟩ idImpl

/-- Concrete factory environment for witnesses. -/
def envF : FactoryEnv :=
  ⟨fun s => .ok ⟨s⟩, fun _ => .error ⟨"open: no such file"⟩⟩

/-- Concrete JSON environment whose pieces all succeed. -/
def envJ : JSONEnv :=
  ⟨fun v => .ok ⟨fun obj => .ok (v ++ ":" ++ reprStr obj)⟩,
    fun data pre ind => (pre ++ ind ++ data, none)⟩

/-- Concrete JSON environment whose indent step fails with partial output. -/
def envJBadIndent : JSONEnv :=
  ⟨fun v => .ok ⟨fun obj => .ok (v ++ ":" ++ reprStr obj)⟩,
    fun data _ _ => (data.take 2, some ⟨"invalid character"⟩)⟩

/-- Storing a handler makes it the one found under its key. -/
theorem lookupHandler_setHandler_self (m : HandlerMap) (t : GoType)
    (e : handlerEntry) : lookupHandler (setHandler m t e) t = some e := by
  induction m with
  | nil => simp [setHandler, lookupHandler]
  | cons p rest ih =>
    obtain ⟨t1, e1⟩ := p
    by_cases ht : t1 = t
    · simp [setHandler, lookupHandler, ht]
    · simp [setHandler, lookupHandler, ht, ih]

/-- Storing a handler leaves every other key's entry unchanged. -/
theorem lookupHandler_setHandler_other (m : HandlerMap) (t t2 : GoType)
    (e : handlerEntry) (hne : t2 ≠ t) :
    lookupHandler (setHandler m t e) t2 = lookupHandler m t2 := by
  induction m with
  | nil =>
    simp [setHandler, lookupHandler, Ne.symm hne]
  | cons p rest ih =>
    obtain ⟨t1, e1⟩ := p
    by_cases ht : t1 = t
    · subst ht
      simp [setHandler, lookupHandler, Ne.symm hne]
    · by_cases ht2 : t1 = t2
      · simp [setHandler, lookupHandler, ht, ht2, hne]
      · simp [setHandler, lookupHandler, ht, ht2, ih]

/-- Claim C1: on every PrintObj call that finds a handler, the header row
is written exactly when the noHeaders flag is false and the object's type
identity differs from the last-printed type (none before the first call),
and on exactly those calls lastType is updated to the current type before
the render function runs, so the update stands regardless of the render
function's result.  The equation characterizes the whole call, so it
covers every sequence of calls by threading the returned state. -/
theorem c1_header_discipline (h : HumanReadablePrinter) (obj : Object)
    (w : FailSched) (st : List String) (entry : handlerEntry)
    (hfind : lookupHandler h.handlerMap (typeOf obj) = some entry) :
    h.PrintObj obj w st =
      if h.noHeaders = false ∧ h.lastType ≠ some (typeOf obj) then
        ⟨HumanReadablePrinter.mk h.handlerMap h.noHeaders (some (typeOf obj)),
          callValue entry.printFunc obj w (st ++ [headerRow entry.columns])⟩
      else
        ⟨h, callValue entry.printFunc obj w st⟩ := by
  unfold HumanReadablePrinter.PrintObj
  rw [hfind]
  rfl

/-- Witness for C1 at a concrete printer, object and writer. -/
theorem c1_header_discipline_witness :
    lookupHandler hrpW.handlerMap (typeOf objW) = some entryW ∧
    hrpW.PrintObj objW okSched [] =
      (if hrpW.noHeaders = false ∧ hrpW.lastType ≠ some (typeOf objW) then
        ⟨HumanReadablePrinter.mk hrpW.handlerMap hrpW.noHeaders (some (typeOf objW)),
          callValue entryW.printFunc objW okSched ([] ++ [headerRow entryW.columns])⟩
      else
        ⟨hrpW, callValue entryW.printFunc objW okSched []⟩) :=
  ⟨rfl, c1_header_discipline hrpW objW okSched [] entryW rfl⟩

/-- Claim C3: when the object's type identity has no registry entry,
PrintObj fails with the unknown-type error naming the object and hands
nothing to the writer. -/
theorem c3_unknown_type (h : HumanReadablePrinter) (obj : Object)
    (w : FailSched) (st : List String)
    (hfind : lookupHandler h.handlerMap (typeOf obj) = none) :
    h.PrintObj obj w st =
      (h, st, some ⟨"error: unknown type " ++ reprStr obj⟩) := by
  unfold HumanReadablePrinter.PrintObj
  rw [hfind]

/-- Witness for C3: a minion object against the witness printer, which
only registers a status handler. -/
theorem c3_unknown_type_witness :
    lookupHandler hrpW.handlerMap (typeOf (.minion ⟨"m1"⟩)) = none ∧
    hrpW.PrintObj (.minion ⟨"m1"⟩) okSched [] =
      (hrpW, [], some ⟨"error: unknown type " ++ reprStr (Object.minion ⟨"m1"⟩)⟩) :=
  ⟨rfl, c3_unknown_type hrpW (.minion ⟨"m1"⟩) okSched [] rfl⟩

/-- Claim C9: a PrintObj call that fails with the unknown-type error
returns the printer state exactly as it was (registry, flag and lastType),
so any later call behaves as if the failed call had not happened. -/
theorem c9_failed_call_preserves_state (h : HumanReadablePrinter) (obj : Object)
    (w : FailSched) (st : List String)
    (hfind : lookupHandler h.handlerMap (typeOf obj) = none) :
    (h.PrintObj obj w st).1 = h ∧
    ∀ (obj2 : Object) (w2 : FailSched) (st2 : List String),
      (h.PrintObj obj w st).1.PrintObj obj2 w2 st2 = h.PrintObj obj2 w2 st2 := by
  have h1 : (h.PrintObj obj w st).1 = h := by
    unfold HumanReadablePrinter.PrintObj
    rw [hfind]
  exact ⟨h1, fun obj2 w2 st2 => by rw [h1]⟩

/-- Witness for C9 at a concrete printer and unknown object. -/
theorem c9_failed_call_preserves_state_witness :
    lookupHandler hrpW.handlerMap (typeOf (.minion ⟨"m2"⟩)) = none ∧
    (hrpW.PrintObj (.minion ⟨"m2"⟩) okSched []).1 = hrpW ∧
    (hrpW.PrintObj (.minion ⟨"m2"⟩) okSched []).1.PrintObj objW okSched [] =
      hrpW.PrintObj objW okSched [] :=
  ⟨rfl,
    (c9_failed_call_preserves_state hrpW (.minion ⟨"m2"⟩) okSched [] rfl).1,
    (c9_failed_call_preserves_state hrpW (.minion ⟨"m2"⟩) okSched [] rfl).2
      objW okSched []⟩

/-- Claim C2: registration rejects the value and leaves the printer (its
registry included) completely unchanged unless it is a function taking
exactly 2 parameters and returning exactly 1 result, with parameter 2
exactly io.Writer and the result exactly error; on success the entry of
columns and the function is stored under the type identity of parameter 1,
overwriting any prior entry for that identity and touching no other. -/
theorem c2_handler_validation (h : HumanReadablePrinter) (columns : List String)
    (v : ReflectValue) :
    (validatePrintHandlerFunc v = none ↔ validShape v = true) ∧
    (∀ e, validatePrintHandlerFunc v = some e →
      HumanReadablePrinter.Handler h columns v = (h, some e)) ∧
    (validatePrintHandlerFunc v = none →
      (HumanReadablePrinter.Handler h columns v).2 = none ∧
      (HumanReadablePrinter.Handler h columns v).1.noHeaders = h.noHeaders ∧
      (HumanReadablePrinter.Handler h columns v).1.lastType = h.lastType ∧
      lookupHandler (HumanReadablePrinter.Handler h columns v).1.handlerMap
        (valIn0 v) = some ⟨columns, v⟩ ∧
      ∀ t, t ≠ valIn0 v →
        lookupHandler (HumanReadablePrinter.Handler h columns v).1.handlerMap t =
          lookupHandler h.handlerMap t) := by
  refine ⟨?_, ?_, ?_⟩
  · cases v with
    | nonFunc t => simp [validatePrintHandlerFunc, validShape]
    | func t impl =>
      by_cases h1 : t.inTypes.length = 2
      · by_cases h2 : t.outTypes.length = 1
        · by_cases h3 : t.inTypes.getD 1 (.other "none") = GoType.ioWriter
          · by_cases h4 : t.outTypes.getD 0 (.other "none") = GoType.errorKind
            · simp [validatePrintHandlerFunc, validShape, h1, h2, h3, h4]
            · simp [validatePrintHandlerFunc, validShape, h1, h2, h3, h4]
          · simp [validatePrintHandlerFunc, validShape, h1, h2, h3]
        · simp [validatePrintHandlerFunc, validShape, h1, h2]
      · simp [validatePrintHandlerFunc, validShape, h1]
  · intro e he
    unfold HumanReadablePrinter.Handler
    rw [he]
  · intro hv
    unfold HumanReadablePrinter.Handler
    rw [hv]
    refine ⟨rfl, rfl, rfl, ?_, ?_⟩
    · exact lookupHandler_setHandler_self h.handlerMap (valIn0 v) ⟨columns, v⟩
    · intro t ht
      exact lookupHandler_setHandler_other h.handlerMap (valIn0 v) t ⟨columns, v⟩ ht

/-- Witness for C2: a 3-parameter function is rejected and the printer is
returned unchanged; the status handler value is accepted and found under
its parameter type. -/
theorem c2_handler_validation_witness :
    validatePrintHandlerFunc vBad3 =
      some ⟨"invalid print handler.Must accept 2 parameters and return 1 value."⟩ ∧
    HumanReadablePrinter.Handler hrpW podColumns vBad3 =
      (hrpW,
        some ⟨"invalid print handler.Must accept 2 parameters and return 1 value."⟩) ∧
    lookupHandler
      (HumanReadablePrinter.Handler (HumanReadablePrinter.mk [] false none)
        statusColumns (printStatusValue envC)).1.handlerMap
      (valIn0 (printStatusValue envC)) =
      some ⟨statusColumns, printStatusValue envC⟩ :=
  ⟨rfl,
    (c2_handler_validation hrpW podColumns vBad3).2.1 _ rfl,
    ((c2_handler_validation (HumanReadablePrinter.mk [] false none) statusColumns
      (printStatusValue envC)).2.2 rfl).2.2.2.1⟩

/-- Claim C4: full input/output characterization of GetPrinter.  It
errs exactly in these cases: unrecognized format (error naming the value),
template or templatefile with empty source, template text failing to
parse, and an unreadable file for templatefile; json and yaml always
construct their printer, and the empty format returns the fallback
printer itself with no error. -/
theorem c4_getprinter_cases (env : FactoryEnv) (version targ format : String)
    (dp : ResourcePrinter) :
    (GetPrinter env version "json" targ dp = .ok (.json version)) ∧
    (GetPrinter env version "yaml" targ dp = .ok (.yaml version)) ∧
    (GetPrinter env version "" targ dp = .ok dp) ∧
    (targ.length = 0 →
      GetPrinter env version "template" targ dp =
        .error ⟨"template format specified but no template given"⟩) ∧
    (∀ e, targ.length ≠ 0 → env.parseTemplate targ = .error e →
      GetPrinter env version "template" targ dp =
        .error ⟨"error parsing template " ++ targ ++ ", " ++ e.msg ++ "\n"⟩) ∧
    (∀ t, targ.length ≠ 0 → env.parseTemplate targ = .ok t →
      GetPrinter env version "template" targ dp = .ok (.template version t)) ∧
    (targ.length = 0 →
      GetPrinter env version "templatefile" targ dp =
        .error ⟨"templatefile format specified but no template file given"⟩) ∧
    (∀ e, targ.length ≠ 0 → env.readFile targ = .error e →
      GetPrinter env version "templatefile" targ dp =
        .error ⟨"error reading template " ++ targ ++ ", " ++ e.msg ++ "\n"⟩) ∧
    (∀ data e, targ.length ≠ 0 → env.readFile targ = .ok data →
      env.parseTemplate data = .error e →
      GetPrinter env version "templatefile" targ dp =
        .error ⟨"error parsing template " ++ data ++ ", " ++ e.msg ++ "\n"⟩) ∧
    (∀ data t, targ.length ≠ 0 → env.readFile targ = .ok data →
      env.parseTemplate data = .ok t →
      GetPrinter env version "templatefile" targ dp = .ok (.template version t)) ∧
    (format ≠ "json" → format ≠ "yaml" → format ≠ "template" →
      format ≠ "templatefile" → format ≠ "" →
      GetPrinter env version format targ dp =
        .error ⟨"output format \"" ++ format ++ "\" not recognized"⟩) := by
  refine ⟨rfl, rfl, rfl, ?_, ?_, ?_, ?_, ?_, ?_, ?_, ?_⟩
  · intro h0
    simp [GetPrinter, h0]
  · intro e hlen he
    simp [GetPrinter, NewTemplatePrinter, hlen, he]
  · intro t hlen ht
    simp [GetPrinter, NewTemplatePrinter, hlen, ht]
  · intro h0
    simp [GetPrinter, h0]
  · intro e hlen he
    simp [GetPrinter, NewTemplatePrinter, hlen, he]
  · intro data e hlen hd he
    simp [GetPrinter, NewTemplatePrinter, hlen, hd, he]
  · intro data t hlen hd ht
    simp [GetPrinter, NewTemplatePrinter, hlen, hd, ht]
  · intro h1 h2 h3 h4 h5
    simp [GetPrinter, h1, h2, h3, h4, h5]

/-- Witness for C4 at concrete inputs: an unrecognized format errs naming
it, and an empty template source errs. -/
theorem c4_getprinter_cases_witness :
    GetPrinter envF "v1beta1" "wide" "" (ResourcePrinter.json "x") =
      .error ⟨"output format \"wide\" not recognized"⟩ ∧
    GetPrinter envF "v1beta1" "template" "" (ResourcePrinter.json "x") =
      .error ⟨"template format specified but no template given"⟩ :=
  ⟨(c4_getprinter_cases envF "v1beta1" "" "wide" (ResourcePrinter.json "x")).2.2.2.2.2.2.2.2.2.2
      (by decide) (by decide) (by decide) (by decide) (by decide),
    (c4_getprinter_cases envF "v1beta1" "" "wide" (ResourcePrinter.json "x")).2.2.2.1 rfl⟩

/-- Claim C6: JSONPrinter.PrintObj obtains the encoded bytes at the
printer's bound version, writes them re-indented with the fixed 4-space
indent unit plus a trailing newline, and a version-lookup or encoder
failure is returned unchanged with nothing handed to the writer. -/
theorem c6_json_printobj (env : JSONEnv) (j : JSONPrinter) (obj : Object)
    (w : FailSched) (st : List String) :
    (∀ e, env.interfacesFor j.version = .error e →
      JSONPrinter.PrintObj env j obj w st = (st, some e)) ∧
    (∀ vi e, env.interfacesFor j.version = .ok vi → vi.encode obj = .error e →
      JSONPrinter.PrintObj env j obj w st = (st, some e)) ∧
    (∀ vi data, env.interfacesFor j.version = .ok vi → vi.encode obj = .ok data →
      JSONPrinter.PrintObj env j obj w st =
        (st ++ [(env.jsonIndent data "" "    ").1 ++ "\n"], w st.length)) := by
  refine ⟨?_, ?_, ?_⟩
  · intro e he
    unfold JSONPrinter.PrintObj
    rw [he]
  · intro vi e hvi he
    simp [JSONPrinter.PrintObj, hvi, he]
  · intro vi data hvi hd
    simp [JSONPrinter.PrintObj, hvi, hd, wwrite]

/-- Witness for C6 at a concrete environment where every step succeeds. -/
theorem c6_json_printobj_witness :
    (envJ.interfacesFor "v1" = .ok ⟨fun obj => .ok ("v1:" ++ reprStr obj)⟩) ∧
    JSONPrinter.PrintObj envJ ⟨"v1"⟩ objW okSched [] =
      ([(envJ.jsonIndent ("v1:" ++ reprStr objW) "" "    ").1 ++ "\n"],
        okSched 0) :=
  ⟨rfl,
    (c6_json_printobj envJ ⟨"v1"⟩ objW okSched []).2.2
      ⟨fun obj => .ok ("v1:" ++ reprStr obj)⟩ ("v1:" ++ reprStr objW) rfl rfl⟩

/-- Claim C8: once encoding succeeds, the call's result error is exactly
the Write result; an indent failure is overwritten before inspection and
the buffer (partial indent output plus the newline) is still written. -/
theorem c8_indent_error_discarded (env : JSONEnv) (j : JSONPrinter)
    (obj : Object) (w : FailSched) (st : List String) (vi : VersionInterfaces)
    (data ind : String) (e : GoError)
    (h1 : env.interfacesFor j.version = .ok vi) (h2 : vi.encode obj = .ok data)
    (h3 : env.jsonIndent data "" "    " = (ind, some e)) :
    JSONPrinter.PrintObj env j obj w st = (st ++ [ind ++ "\n"], w st.length) := by
  simp [JSONPrinter.PrintObj, h1, h2, h3, wwrite]

/-- Witness for C8 at a concrete environment whose indent step fails. -/
theorem c8_indent_error_discarded_witness :
    envJBadIndent.jsonIndent ("v1:" ++ reprStr objW) "" "    " =
      (("v1:" ++ reprStr objW).take 2, some ⟨"invalid character"⟩) ∧
    JSONPrinter.PrintObj envJBadIndent ⟨"v1"⟩ objW okSched [] =
      ([("v1:" ++ reprStr objW).take 2 ++ "\n"], okSched 0) :=
  ⟨rfl,
    c8_indent_error_discarded envJBadIndent ⟨"v1"⟩ objW okSched []
      ⟨fun obj => .ok ("v1:" ++ reprStr obj)⟩ ("v1:" ++ reprStr objW)
      (("v1:" ++ reprStr objW).take 2) ⟨"invalid character"⟩ rfl rfl rfl⟩

/-- The pod-list loop is the generic first-error run of printPod. -/
theorem printPodListLoop_eq (env : PrintEnv) (w : FailSched) :
    ∀ (st : List String) (items : List ApiPod),
      printPodListLoop env w st items =
        firstErrorRun (fun s p => printPod env w s p) st items := by
  intro st items
  induction items generalizing st with
  | nil => rfl
  | cons x xs ih =>
    simp only [printPodListLoop, firstErrorRun]
    rcases hx : printPod env w st x with ⟨st1, r⟩
    cases r <;> simp [hx, ih]

/-- The controller-list loop is the generic first-error run. -/
theorem printRcListLoop_eq (env : PrintEnv) (w : FailSched) :
    ∀ (st : List String) (items : List ApiReplicationController),
      printRcListLoop env w st items =
        firstErrorRun (fun s c => printReplicationController env w s c) st items := by
  intro st items
  induction items generalizing st with
  | nil => rfl
  | cons x xs ih =>
    simp only [printRcListLoop, firstErrorRun]
    rcases hx : printReplicationController env w st x with ⟨st1, r⟩
    cases r <;> simp [hx, ih]

/-- The service-list loop is the generic first-error run. -/
theorem printServiceListLoop_eq (env : PrintEnv) (w : FailSched) :
    ∀ (st : List String) (items : List ApiService),
      printServiceListLoop env w st items =
        firstErrorRun (fun s x => printService env w s x) st items := by
  intro st items
  induction items generalizing st with
  | nil => rfl
  | cons x xs ih =>
    simp only [printServiceListLoop, firstErrorRun]
    rcases hx : printService env w st x with ⟨st1, r⟩
    cases r <;> simp [hx, ih]

/-- The minion-list loop is the generic first-error run. -/
theorem printMinionListLoop_eq (env : PrintEnv) (w : FailSched) :
    ∀ (st : List String) (items : List ApiMinion),
      printMinionListLoop env w st items =
        firstErrorRun (fun s m => printMinion env w s m) st items := by
  intro st items
  induction items generalizing st with
  | nil => rfl
  | cons x xs ih =>
    simp only [printMinionListLoop, firstErrorRun]
    rcases hx : printMinion env w st x with ⟨st1, r⟩
    cases r <;> simp [hx, ih]

/-- The event-list loop is the generic first-error run. -/
theorem printEventListLoop_eq (env : PrintEnv) (w : FailSched) :
    ∀ (st : List String) (items : List ApiEvent),
      printEventListLoop env w st items =
        firstErrorRun (fun s e => printEvent env w s e) st items := by
  intro st items
  induction items generalizing st with
  | nil => rfl
  | cons x xs ih =>
    simp only [printEventListLoop, firstErrorRun]
    rcases hx : printEvent env w st x with ⟨st1, r⟩
    cases r <;> simp [hx, ih]

/-- A failing head item aborts the run with that error. -/
theorem firstErrorRun_abort {α : Type}
    (f : List String → α → List String × Option GoError) (s0 s1 : List String)
    (x : α) (xs : List α) (e : GoError) (hfe : f s0 x = (s1, some e)) :
    firstErrorRun f s0 (x :: xs) = (s1, some e) := by
  simp only [firstErrorRun]
  rw [hfe]

/-- When every call of f succeeds, the run returns nil. -/
theorem firstErrorRun_ok {α : Type}
    (f : List String → α → List String × Option GoError)
    (hall : ∀ s x, (f s x).2 = none) :
    ∀ (s0 : List String) (xs : List α), (firstErrorRun f s0 xs).2 = none := by
  intro s0 xs
  induction xs generalizing s0 with
  | nil => rfl
  | cons x xs ih =>
    simp only [firstErrorRun]
    rcases hx : f s0 x with ⟨st1, r⟩
    have hr : r = none := by
      have := hall s0 x
      rw [hx] at this
      exact this
    subst hr
    simp [ih]

/-- Claim C7: every list-form default render function invokes its singular
counterpart once per contained item in order, returning the first non-nil
error without rendering the remaining items and nil when every item
succeeds; formally each equals firstErrorRun of its singular function,
and firstErrorRun aborts on the first error and returns nil when all
calls succeed. -/
theorem c7_list_delegation (env : PrintEnv) (w : FailSched) (st : List String)
    (pl : ApiPodList) (rl : ApiReplicationControllerList) (sl : ApiServiceList)
    (ml : ApiMinionList) (el : ApiEventList) :
    (printPodList env w st pl =
      firstErrorRun (fun s p => printPod env w s p) st pl.items) ∧
    (printReplicationControllerList env w st rl =
      firstErrorRun (fun s c => printReplicationController env w s c) st rl.items) ∧
    (printServiceList env w st sl =
      firstErrorRun (fun s x => printService env w s x) st sl.items) ∧
    (printMinionList env w st ml =
      firstErrorRun (fun s m => printMinion env w s m) st ml.items) ∧
    (printEventList env w st el =
      firstErrorRun (fun s e => printEvent env w s e) st el.items) ∧
    (∀ (α : Type) (f : List String → α → List String × Option GoError)
      (s0 s1 : List String) (x : α) (xs : List α) (e : GoError),
      f s0 x = (s1, some e) → firstErrorRun f s0 (x :: xs) = (s1, some e)) ∧
    (∀ (α : Type) (f : List String → α → List String × Option GoError)
      (s0 : List String) (xs : List α), (∀ s x, (f s x).2 = none) →
      (firstErrorRun f s0 xs).2 = none) :=
  ⟨printPodListLoop_eq env w st pl.items,
    printRcListLoop_eq env w st rl.items,
    printServiceListLoop_eq env w st sl.items,
    printMinionListLoop_eq env w st ml.items,
    printEventListLoop_eq env w st el.items,
    fun _ f s0 s1 x xs e hfe => firstErrorRun_abort f s0 s1 x xs e hfe,
    fun _ f s0 xs hall => firstErrorRun_ok f hall s0 xs⟩

/-- Witness for C7: a two-pod list against a writer that fails on the
first Write aborts after the first item with the write error. -/
theorem c7_list_delegation_witness :
    printPodList envC failSched [] ⟨[pod1, pod2]⟩ =
      firstErrorRun (fun s p => printPod envC failSched s p) [] [pod1, pod2] ∧
    printPod envC failSched [] pod1 =
      ([podRow envC PodSpec.zeroValue pod1], some ⟨"write failed"⟩) ∧
    firstErrorRun (fun s p => printPod envC failSched s p) [] [pod1, pod2] =
      ([podRow envC PodSpec.zeroValue pod1], some ⟨"write failed"⟩) :=
  ⟨(c7_list_delegation envC failSched [] ⟨[pod1, pod2]⟩ ⟨[]⟩ ⟨[]⟩ ⟨[]⟩ ⟨[]⟩).1,
    rfl,
    (c7_list_delegation envC failSched [] ⟨[pod1, pod2]⟩ ⟨[]⟩ ⟨[]⟩ ⟨[]⟩
      ⟨[]⟩).2.2.2.2.2.1 ApiPod (fun s p => printPod envC failSched s p) []
      [podRow envC PodSpec.zeroValue pod1] pod1 [pod2] ⟨"write failed"⟩ rfl⟩

/-- Claim C10: printPod's result error is always exactly the writer's
Write result, and when the manifest conversion fails the failure is only
logged: the data row is still written, formatted from the zero-valued pod
spec. -/
theorem c10_conversion_error_only_logged (env : PrintEnv) (w : FailSched)
    (st : List String) (pod : ApiPod) (e : GoError)
    (hc : env.convertManifest pod.desiredState.manifest = .error e) :
    (printPod env w st pod).2 = w st.length ∧
    printPod env w st pod =
      (st ++ [podRow env PodSpec.zeroValue pod], w st.length) := by
  constructor
  · unfold printPod
    rfl
  · simp [printPod, hc, wwrite]

/-- Witness for C10: a conversion that always fails still yields the
zero-spec row and the (successful) Write result. -/
theorem c10_conversion_error_only_logged_witness :
    envBadConvert.convertManifest pod1.desiredState.manifest =
      .error ⟨"conversion failed"⟩ ∧
    printPod envBadConvert okSched [] pod1 =
      ([podRow envBadConvert PodSpec.zeroValue pod1], okSched 0) :=
  ⟨rfl,
    (c10_conversion_error_only_logged envBadConvert okSched [] pod1
      ⟨"conversion failed"⟩ rfl).2⟩

/-- Claim C5 as stated is false on the code: after printing a service
list, printing a singular service does emit one more header row, because
the singular and list pointer types are distinct registered identities and
the header fires on every type transition.  Concretely: the list call
yields one header plus two data rows, and the following singular call adds
a second header row before its data row. -/
theorem c5_counterexample :
    (NewHumanReadablePrinter envC false).PrintObj
        (.serviceList ⟨[svc1, svc2]⟩) okSched [] =
      (hrAfterList,
        [headerRow serviceColumns, svcRow envC svc1, svcRow envC svc2], none) ∧
    hrAfterList.PrintObj (.service svc3) okSched
        [headerRow serviceColumns, svcRow envC svc1, svcRow envC svc2] =
      (hrAfterSvc,
        [headerRow serviceColumns, svcRow envC svc1, svcRow envC svc2,
          headerRow serviceColumns, svcRow envC svc3], none) ∧
    List.count (headerRow serviceColumns)
      [headerRow serviceColumns, svcRow envC svc1, svcRow envC svc2,
        headerRow serviceColumns, svcRow envC svc3] = 2 :=
  ⟨rfl, rfl, rfl⟩

/-- Claim C5 amended: with headers enabled, printing a 2-item service list
produces one header row then 2 data rows; a subsequent singular service
print on the same instance produces one additional header row (the
singular identity differs from the list identity) and one more data row. -/
theorem c5_amended_scenario (env : PrintEnv) (a b c : ApiService) :
    (NewHumanReadablePrinter env false).PrintObj
        (.serviceList ⟨[a, b]⟩) okSched [] =
      (HumanReadablePrinter.mk (NewHumanReadablePrinter env false).handlerMap
          false (some GoType.serviceListPtr),
        [headerRow serviceColumns, svcRow env a, svcRow env b], none) ∧
    (HumanReadablePrinter.mk (NewHumanReadablePrinter env false).handlerMap
        false (some GoType.serviceListPtr)).PrintObj (.service c) okSched
        [headerRow serviceColumns, svcRow env a, svcRow env b] =
      (HumanReadablePrinter.mk (NewHumanReadablePrinter env false).handlerMap
          false (some GoType.servicePtr),
        [headerRow serviceColumns, svcRow env a, svcRow env b,
          headerRow serviceColumns, svcRow env c], none) :=
  ⟨rfl, rfl⟩

end ResourcePrinterModel
